import Mathlib

/-!
Verification of the flowwhispr real-time audio capture core
(`flowwhispr-core/src/audio.rs`) via a shallow embedding in Lean 4.

Modelling conventions:
* `f32` samples are modelled as exact rationals `ℚ`; the sample values used
  in concrete statements (0, ±1/2, ±9/10, ±1, 2, -3) and the constant 32767
  are exactly representable in `f32`, and all arithmetic performed on them by
  the encoder is exact at `f32` precision.
* Machine integers (`u32`, `u16`, `u64`, `usize`, byte values `u8`) are
  modelled as `ℕ`; the signed 16-bit PCM value as `ℤ`. The only arithmetic on
  them (the `buffer_duration_ms` division and the PCM byte split) stays far
  below every relevant word size for any physically realisable buffer, so no
  wrap-around is modelled.
* The CPAL host is abstracted to exactly what `with_config` consumes: an
  optional default input device carrying the result of
  `supported_input_configs()`.
* Stream construction/activation in `start()` is externalised as a
  `BuildOutcome` parameter (success, `build_input_stream` error, `play` error),
  mirroring the two `map_err` sites in the source.
* `Option<Stream>` is modelled by a `Bool` field `stream` (whether a stream
  handle is currently retained).
-/

/-- `CaptureState` from `audio.rs`: the three-valued capture mode. -/
inductive CaptureState where
  | Idle
  | Recording
  | Paused
deriving DecidableEq

/-- `AudioCaptureConfig` from `audio.rs`. -/
structure AudioCaptureConfig where
  sample_rate : ℕ
  channels : ℕ
  buffer_size : ℕ
deriving DecidableEq

/-- `AudioCaptureConfig::default()`: 16000 Hz, mono, 4096-sample buffer. -/
def defaultConfig : AudioCaptureConfig :=
  { sample_rate := 16000, channels := 1, buffer_size := 4096 }

/-- CPAL `SampleFormat`, restricted to the constructors the negotiation code
distinguishes: `F32` versus anything else. -/
inductive SampleFormat where
  | I16
  | U16
  | F32
deriving DecidableEq

/-- A CPAL `SupportedStreamConfigRange`: channel count, sample-rate range and
sample format advertised by the device. -/
structure SupportedStreamConfigRange where
  channels : ℕ
  min_sample_rate : ℕ
  max_sample_rate : ℕ
  sample_format : SampleFormat
deriving DecidableEq

/-- The resolved CPAL `StreamConfig` produced by
`supported_config.with_sample_rate(rate).config()`. -/
structure StreamConfig where
  channels : ℕ
  sample_rate : ℕ
deriving DecidableEq

/-- An input device, abstracted to the one capability `with_config` uses:
the result of `supported_input_configs()` (which can itself fail). -/
structure Device where
  supported_input_configs : Except String (List SupportedStreamConfigRange)

/-- The CPAL host, abstracted to `default_input_device()`. -/
structure Host where
  default_input_device : Option Device

/-- The distinct `Error::Audio(...)` values produced in `audio.rs`, one
constructor per error site. -/
inductive AudioError where
  | noInputDevice
  | supportedConfigsFailed (msg : String)
  | noSupportedConfig (sample_rate : ℕ) (channels : ℕ)
  | buildStreamFailed (msg : String)
  | playStreamFailed (msg : String)
deriving DecidableEq

/-- The `AudioCapture` struct: configuration, resolved stream config, the
lock-protected `CaptureState`, the lock-protected sample buffer, and whether
an `Option<Stream>` handle is retained. -/
structure AudioCapture where
  config : AudioCaptureConfig
  stream_config : StreamConfig
  state : CaptureState
  buffer : List ℚ
  stream : Bool
deriving DecidableEq

/-! ## PCM encoder (`AudioCapture::samples_to_pcm`)

`sample.clamp(-1.0, 1.0)` is written with the executable comparison
`Rat.blt` (which is definitionally `<` on `ℚ`); `clampSample_eq` below proves
it equal to the mathematical clamp `max (-1) (min 1 x)`. The combined
"multiply by 32767 and cast `as i16`" step is computed on the reduced
numerator/denominator pair so that the kernel can evaluate it;
`scaledTrunc_eq`, `truncToI16_of_nonneg` and `truncToI16_of_nonpos` prove it
equal to truncation toward zero of the exact product `x * 32767`. -/

/-- `sample.clamp(-1.0, 1.0)`. -/
def clampSample (x : ℚ) : ℚ :=
  if Rat.blt x (-1) then -1 else if Rat.blt 1 x then 1 else x

/-- Truncation of a rational toward zero (the behaviour of the `as i16`
cast on values within i16 range, which the clamped product always is). -/
def truncToI16 (q : ℚ) : ℤ := q.num.tdiv (q.den : ℤ)

/-- `(x * 32767.0) as i16`: truncation toward zero of `x * 32767`, computed
directly on the numerator and denominator of `x`. -/
def scaledTrunc (x : ℚ) : ℤ := (x.num * 32767).tdiv (x.den : ℤ)

/-- `i16::to_le_bytes`: the two's-complement little-endian byte pair. -/
def i16LeBytes (n : ℤ) : List ℕ :=
  [(n % 65536).toNat % 256, (n % 65536).toNat / 256]

/-- Encoding of one sample: clamp, scale by 32767, truncate, split to bytes. -/
def encodeSample (x : ℚ) : List ℕ :=
  i16LeBytes (scaledTrunc (clampSample x))

/-- `AudioCapture::samples_to_pcm`: flat-map `encodeSample` over the input. -/
def samples_to_pcm (samples : List ℚ) : List ℕ :=
  (samples.map encodeSample).flatten

theorem clampSample_eq (x : ℚ) : clampSample x = max (-1) (min 1 x) := by
  unfold clampSample
  split_ifs with h1 h2
  · have hx : x < -1 := h1
    rw [max_eq_left ((min_le_right 1 x).trans hx.le)]
  · have hx : (1:ℚ) < x := h2
    rw [min_eq_left hx.le, max_eq_right (by norm_num)]
  · have hx1 : ¬ x < -1 := h1
    have hx2 : ¬ (1:ℚ) < x := h2
    rw [min_eq_right (not_lt.1 hx2), max_eq_right (not_lt.1 hx1)]

theorem truncToI16_of_nonneg (q : ℚ) (h : 0 ≤ q) : truncToI16 q = ⌊q⌋ := by
  rw [Rat.floor_def]
  exact Int.tdiv_eq_ediv (Rat.num_nonneg.2 h) (Int.natCast_nonneg _)

theorem truncToI16_neg (q : ℚ) : truncToI16 (-q) = -truncToI16 q := by
  unfold truncToI16
  rw [Rat.neg_num, Rat.neg_den, Int.neg_tdiv]

theorem truncToI16_of_nonpos (q : ℚ) (h : q ≤ 0) : truncToI16 q = ⌈q⌉ := by
  have h1 : q = -(-q) := by ring
  rw [h1, truncToI16_neg, Int.ceil_neg, truncToI16_of_nonneg _ (by simpa using h)]

theorem scaledTrunc_eq_of_nonneg (x : ℚ) (h : 0 ≤ x) :
    scaledTrunc x = truncToI16 (x * 32767) := by
  have key : x * 32767 = ((x.num * 32767 : ℤ) : ℚ) / ((x.den : ℕ) : ℚ) := by
    conv_lhs => rw [← Rat.num_div_den x]
    push_cast
    ring
  have hnn : (0:ℤ) ≤ x.num * 32767 := mul_nonneg (Rat.num_nonneg.2 h) (by norm_num)
  rw [truncToI16_of_nonneg _ (by rw [key]; positivity), key,
    Rat.floor_intCast_div_natCast]
  exact Int.tdiv_eq_ediv hnn (Int.natCast_nonneg _)

theorem scaledTrunc_neg (x : ℚ) : scaledTrunc (-x) = -scaledTrunc x := by
  unfold scaledTrunc
  rw [Rat.neg_num, Rat.neg_den, Int.neg_mul, Int.neg_tdiv]

/-- `scaledTrunc x` is truncation toward zero of the exact product
`x * 32767`. -/
theorem scaledTrunc_eq (x : ℚ) : scaledTrunc x = truncToI16 (x * 32767) := by
  rcases le_total 0 x with h | h
  · exact scaledTrunc_eq_of_nonneg x h
  · have h1 : x = -(-x) := by ring
    rw [h1, scaledTrunc_neg, scaledTrunc_eq_of_nonneg _ (by simpa using h),
      show -x * 32767 = -(x * 32767) from by ring, truncToI16_neg, neg_neg,
      neg_neg]

theorem encodeSample_length (x : ℚ) : (encodeSample x).length = 2 := rfl

theorem samples_to_pcm_length (S : List ℚ) :
    (samples_to_pcm S).length = 2 * S.length := by
  induction S with
  | nil => rfl
  | cons x xs ih =>
    show (encodeSample x ++ samples_to_pcm xs).length = 2 * (xs.length + 1)
    rw [List.length_append, encodeSample_length, ih]
    omega

example : samples_to_pcm [0] = [0, 0] := by decide
example : samples_to_pcm [1] = [255, 127] := by decide
example : samples_to_pcm [-1] = [1, 128] := by decide
example : samples_to_pcm [2] = samples_to_pcm [1] := by decide
example : samples_to_pcm [-3] = samples_to_pcm [-1] := by decide

/-! ## Device negotiation (`AudioCapture::with_config`) -/

/-- The first filter in `with_config`: requested channel count and
32-bit float sample format. -/
def cfgMatches (config : AudioCaptureConfig) (c : SupportedStreamConfigRange) : Bool :=
  c.channels == config.channels && c.sample_format == SampleFormat.F32

/-- The `find` predicate in `with_config`: the requested sample rate lies in
the advertised `[min, max]` range. -/
def rateInRange (config : AudioCaptureConfig) (c : SupportedStreamConfigRange) : Bool :=
  decide (c.min_sample_rate ≤ config.sample_rate ∧
    config.sample_rate ≤ c.max_sample_rate)

/-- The `AudioCapture` value built by a successful `with_config`: the chosen
range with its sample rate fixed to the requested value, state `Idle`, empty
buffer, no stream handle. -/
def initialCapture (config : AudioCaptureConfig)
    (sc : SupportedStreamConfigRange) : AudioCapture :=
  { config := config
    stream_config := { channels := sc.channels, sample_rate := config.sample_rate }
    state := CaptureState.Idle
    buffer := []
    stream := false }

/-- `AudioCapture::with_config`: default input device, filter supported
configurations, pick the first whose rate range contains the requested rate,
fix the sample rate. -/
def with_config (config : AudioCaptureConfig) (host : Host) :
    Except AudioError AudioCapture :=
  match host.default_input_device with
  | none => Except.error AudioError.noInputDevice
  | some device =>
    match device.supported_input_configs with
    | Except.error e => Except.error (AudioError.supportedConfigsFailed e)
    | Except.ok configs =>
      match (configs.filter (cfgMatches config)).find? (rateInRange config) with
      | none =>
        Except.error (AudioError.noSupportedConfig config.sample_rate config.channels)
      | some sc => Except.ok (initialCapture config sc)

theorem with_config_ok_shape (config : AudioCaptureConfig) (host : Host)
    (ac : AudioCapture) (h : with_config config host = Except.ok ac) :
    ac.buffer = [] ∧ ac.config = config ∧ ac.state = CaptureState.Idle ∧
      ac.stream = false ∧ ac.stream_config.sample_rate = config.sample_rate := by
  cases hd : host.default_input_device with
  | none => simp [with_config, hd] at h
  | some device =>
    cases hc : device.supported_input_configs with
    | error e => simp [with_config, hd, hc] at h
    | ok configs =>
      cases hf : (configs.filter (cfgMatches config)).find? (rateInRange config) with
      | none => simp [with_config, hd, hc, hf] at h
      | some sc =>
        simp [with_config, hd, hc, hf] at h
        subst h
        exact ⟨rfl, rfl, rfl, rfl, rfl⟩

/-! ## Controller operations

The three `Error::Audio` sites inside `start()` are externalised: building
and activating the CPAL stream is outside the embedded core, so its outcome
(`build_input_stream` succeeded or failed, `stream.play()` succeeded or
failed) is a parameter of `start`. Each operation returns the post-call
`AudioCapture` together with the value the source function returns. -/

/-- Outcome of the externalised CPAL calls inside `start()`. -/
inductive BuildOutcome where
  | ok
  | buildErr (msg : String)
  | playErr (msg : String)
deriving DecidableEq

/-- `AudioCapture::start`: no-op if already `Recording`; otherwise clear the
buffer, build and play the stream (on failure return the error — the
`stream` field is only assigned on success), then retain the handle and set
the state to `Recording`. -/
def start (outcome : BuildOutcome) (s : AudioCapture) :
    AudioCapture × Except AudioError Unit :=
  if s.state = CaptureState.Recording then
    (s, Except.ok ())
  else
    let s1 : AudioCapture := { s with buffer := [] }
    match outcome with
    | BuildOutcome.buildErr msg =>
      (s1, Except.error (AudioError.buildStreamFailed msg))
    | BuildOutcome.playErr msg =>
      (s1, Except.error (AudioError.playStreamFailed msg))
    | BuildOutcome.ok =>
      ({ s1 with stream := true, state := CaptureState.Recording }, Except.ok ())

/-- `AudioCapture::stop`: state to `Idle`, drop the stream handle, take the
whole buffer and return its PCM encoding. The source has no failure path. -/
def stop (s : AudioCapture) : AudioCapture × Except AudioError (List ℕ) :=
  ({ s with state := CaptureState.Idle, stream := false, buffer := [] },
   Except.ok (samples_to_pcm s.buffer))

/-- `AudioCapture::stop_stream`: state to `Idle`, drop the stream handle,
buffer retained. -/
def stop_stream (s : AudioCapture) : AudioCapture × Except AudioError Unit :=
  ({ s with state := CaptureState.Idle, stream := false }, Except.ok ())

/-- `AudioCapture::take_buffered_audio`: take the whole buffer and return its
PCM encoding; state and stream handle untouched. -/
def take_buffered_audio (s : AudioCapture) : AudioCapture × List ℕ :=
  ({ s with buffer := [] }, samples_to_pcm s.buffer)

/-- `AudioCapture::pause`: unconditionally set the state to `Paused`. -/
def pause (s : AudioCapture) : AudioCapture :=
  { s with state := CaptureState.Paused }

/-- `AudioCapture::resume`: unconditionally set the state to `Recording`. -/
def resume (s : AudioCapture) : AudioCapture :=
  { s with state := CaptureState.Recording }

/-- `AudioCapture::buffer_duration_ms`:
`(samples * 1000) / (sample_rate * channels)` in integer division. -/
def buffer_duration_ms (s : AudioCapture) : ℕ :=
  s.buffer.length * 1000 / (s.config.sample_rate * s.config.channels)

/-- `impl Drop for AudioCapture`: force the state to `Idle` and release any
stream handle. -/
def dropCapture (s : AudioCapture) : AudioCapture :=
  { s with state := CaptureState.Idle, stream := false }

/-! ## Fine-grained interleaving model of the callback protocol

`state` and `buffer` are two *independent* `Mutex`es in the source. The
input callback is therefore two separate critical sections:
`if *state.lock() == Recording` (the guard is dropped when the condition has
been evaluated) and then `buffer.lock().extend_from_slice(data)`. The
control-thread operations are likewise sequences of single-lock critical
sections (`stop` is `*state.lock() = Idle`, then `self.stream = None`, then
`mem::take(&mut *buffer.lock())`). An execution is an arbitrary interleaving
of these atomic critical sections. `FineState.pending` records a callback
invocation that has executed its state check but not yet its append. -/

/-- The first critical section of the input callback:
`*state.lock() == CaptureState::Recording`. -/
def cb_check (s : AudioCapture) : Bool := s.state == CaptureState.Recording

/-- The second critical section of the input callback:
`buffer.lock().extend_from_slice(data)`, executed only when the earlier
state check observed `Recording`. -/
def cb_append (data : List ℚ) (observedRecording : Bool) (s : AudioCapture) :
    AudioCapture :=
  if observedRecording then { s with buffer := s.buffer ++ data } else s

/-- Shared state plus the progress of an in-flight callback invocation:
`pending = some (data, flag)` means the callback holding chunk `data` has
executed its state check (observing `flag`) but not yet its append. -/
structure FineState where
  cap : AudioCapture
  pending : Option (List ℚ × Bool)
deriving DecidableEq

/-- One atomic critical section of either thread: the callback's state check
or conditional append, or one single-lock step of a control operation. -/
inductive FineAction where
  | cbCheck (data : List ℚ)
  | cbAppend
  | ctlSetState (v : CaptureState)
  | ctlClearBuffer
  | ctlTakeBuffer
  | ctlSetStream (b : Bool)
deriving DecidableEq

/-- Effect of one atomic critical section. A `cbCheck` while another callback
invocation is still pending, or a `cbAppend` with none pending, cannot happen
on the single hardware thread and is a no-op. -/
def fstep (w : FineState) : FineAction → FineState
  | FineAction.cbCheck data =>
    match w.pending with
    | none => { w with pending := some (data, cb_check w.cap) }
    | some _ => w
  | FineAction.cbAppend =>
    match w.pending with
    | some (data, flag) => { cap := cb_append data flag w.cap, pending := none }
    | none => w
  | FineAction.ctlSetState v => { w with cap := { w.cap with state := v } }
  | FineAction.ctlClearBuffer => { w with cap := { w.cap with buffer := [] } }
  | FineAction.ctlTakeBuffer => { w with cap := { w.cap with buffer := [] } }
  | FineAction.ctlSetStream b => { w with cap := { w.cap with stream := b } }

/-- Run a whole interleaved execution. -/
def frun (w : FineState) (as : List FineAction) : FineState := as.foldl fstep w

/-- Critical sections that empty the sample buffer (the clear in `start` and
the take in `stop` / `take_buffered_audio`). -/
def drainsBuffer : FineAction → Bool
  | FineAction.ctlClearBuffer => true
  | FineAction.ctlTakeBuffer => true
  | _ => false

/-- The chunk an action appends: a `cbAppend` whose pending state check
observed `Recording` contributes its chunk, every other action contributes
nothing. -/
def appendDelta (w : FineState) : FineAction → List ℚ
  | FineAction.cbAppend =>
    match w.pending with
    | some (data, true) => data
    | _ => []
  | _ => []

/-- The chunks appended over an execution: exactly those whose state check
observed `Recording`. -/
def recordedFine (w : FineState) : List FineAction → List ℚ
  | [] => []
  | a :: as => appendDelta w a ++ recordedFine (fstep w a) as

theorem fstep_buffer (w : FineState) (a : FineAction)
    (ha : drainsBuffer a = false) :
    (fstep w a).cap.buffer = w.cap.buffer ++ appendDelta w a := by
  cases a with
  | cbCheck d => cases hp : w.pending <;> simp [fstep, appendDelta, hp]
  | cbAppend =>
    cases hp : w.pending with
    | none => simp [fstep, appendDelta, hp]
    | some p =>
      obtain ⟨d, f⟩ := p
      cases f <;> simp [fstep, appendDelta, cb_append, hp]
  | ctlSetState v => simp [fstep, appendDelta]
  | ctlClearBuffer => simp [drainsBuffer] at ha
  | ctlTakeBuffer => simp [drainsBuffer] at ha
  | ctlSetStream b => simp [fstep, appendDelta]

theorem frun_buffer (as : List FineAction) :
    ∀ w : FineState, (∀ a ∈ as, drainsBuffer a = false) →
      (frun w as).cap.buffer = w.cap.buffer ++ recordedFine w as := by
  induction as with
  | nil => intro w _; simp [frun, recordedFine]
  | cons a as ih =>
    intro w h
    have ha : drainsBuffer a = false := h a (List.mem_cons_self a as)
    have h' : ∀ b ∈ as, drainsBuffer b = false :=
      fun b hb => h b (List.mem_cons_of_mem a hb)
    calc (frun w (a :: as)).cap.buffer
        = (frun (fstep w a) as).cap.buffer := rfl
      _ = (fstep w a).cap.buffer ++ recordedFine (fstep w a) as := ih (fstep w a) h'
      _ = w.cap.buffer ++ (appendDelta w a ++ recordedFine (fstep w a) as) := by
          rw [fstep_buffer w a ha, List.append_assoc]
      _ = w.cap.buffer ++ recordedFine w (a :: as) := rfl

/-! ## Concrete fixtures -/

/-- A device range matching the default request: mono, F32, 8000–48000 Hz. -/
def r0 : SupportedStreamConfigRange :=
  { channels := 1, min_sample_rate := 8000, max_sample_rate := 48000
    sample_format := SampleFormat.F32 }

/-- A device advertising exactly `r0`. -/
def dev0 : Device := { supported_input_configs := Except.ok [r0] }

/-- A host whose default input device is `dev0`. -/
def host0 : Host := { default_input_device := some dev0 }

/-- A controller mid-session: `Recording` with a live stream handle. -/
def capRecording : AudioCapture :=
  { config := defaultConfig, stream_config := { channels := 1, sample_rate := 16000 }
    state := CaptureState.Recording, buffer := [], stream := true }

/-- A controller paused mid-session: `Paused` with a live stream handle
(reached by `start()` then `pause()`). -/
def capPausedWithStream : AudioCapture :=
  { capRecording with state := CaptureState.Paused }

/-- A recording controller with one queued sample. -/
def capBuf1 : AudioCapture := { capRecording with buffer := [0] }

/-- A recording controller with two queued samples. -/
def capBuf2 : AudioCapture := { capRecording with buffer := [0, 0] }

/-- Initial fine-grained state: recording, empty buffer, no callback
in flight. -/
def w0 : FineState := { cap := capRecording, pending := none }

/-- The §8 scenario as an interleaving: deliver `[1, -1]`, pause, deliver
`[2]` (dropped), resume, deliver `[-2]`. -/
def scenarioTrace : List FineAction :=
  [FineAction.cbCheck [1, -1], FineAction.cbAppend,
   FineAction.ctlSetState CaptureState.Paused,
   FineAction.cbCheck [2], FineAction.cbAppend,
   FineAction.ctlSetState CaptureState.Recording,
   FineAction.cbCheck [-2], FineAction.cbAppend]

/-- A callback invocation's state check (observing `Recording`), followed by
a complete `stop()` on the control thread (set `Idle`, drop the handle, take
the buffer), before the callback's append runs. -/
def stopRaceTrace : List FineAction :=
  [FineAction.cbCheck [1], FineAction.ctlSetState CaptureState.Idle,
   FineAction.ctlSetStream false, FineAction.ctlTakeBuffer]

/-! ## Claims -/

/-- C1 counterexample: the state check and the append of one callback
invocation are separate critical sections (two independent mutexes), so a
full `stop()` can run between them. After `stopRaceTrace` the state is
`Idle` and the buffer has been drained empty, yet the pending append then
lands its chunk: a sample chunk is appended to the buffer while
`CaptureState == Idle`, refuting "appended only while Recording" for this
interleaving. -/
theorem c1_counterexample :
    (frun w0 stopRaceTrace).cap.state = CaptureState.Idle ∧
    (frun w0 stopRaceTrace).cap.buffer = [] ∧
    (frun w0 (stopRaceTrace ++ [FineAction.cbAppend])).cap.state =
      CaptureState.Idle ∧
    (frun w0 (stopRaceTrace ++ [FineAction.cbAppend])).cap.buffer = [1] := by
  decide

/-- C1 (amended): across any interleaved execution containing no buffer
drain or clear, the SampleBuffer grows by exactly the chunks whose callback
state check observed `Recording`; a chunk whose check observed `Paused` or
`Idle` is discarded (its append is a no-op), and samples dropped while
`Paused` are not replayed after `resume()`. The check observes `Recording`
exactly when `CaptureState == Recording` at the instant of the check. -/
theorem c1_callback_gating (w : FineState) (as : List FineAction)
    (h : ∀ a ∈ as, drainsBuffer a = false) :
    (frun w as).cap.buffer = w.cap.buffer ++ recordedFine w as ∧
    (∀ s : AudioCapture, cb_check s = true ↔ s.state = CaptureState.Recording) ∧
    (∀ (d : List ℚ) (s : AudioCapture), cb_append d false s = s) :=
  ⟨frun_buffer as w h, fun s => by simp [cb_check], fun _ _ => rfl⟩

/-- C1 witness: the §8 pause/resume scenario evaluated concretely; the
chunk delivered while `Paused` is absent from the final buffer. -/
theorem c1_witness :
    (∀ a ∈ scenarioTrace, drainsBuffer a = false) ∧
    (frun w0 scenarioTrace).cap.buffer =
      w0.cap.buffer ++ recordedFine w0 scenarioTrace ∧
    (frun w0 scenarioTrace).cap.buffer = [1, -1, -2] :=
  ⟨by decide, (c1_callback_gating w0 scenarioTrace (by decide)).1, by decide⟩

/-- C2: the PCM encoder emits exactly two bytes per input sample (output
length `2 * len S`); each sample is clamped to `[-1, 1]` and the scaled
value is truncated toward zero (floor for nonnegative, ceiling for
nonpositive products); `encode [0] = [0x00, 0x00]`, `encode [1]` is the
little-endian bytes of i16 32767, and `encode [-1]` is the little-endian
bytes of i16 -32767. -/
theorem c2_pcm_encoder :
    (∀ S : List ℚ, (samples_to_pcm S).length = 2 * S.length) ∧
    (∀ x : ℚ, clampSample x = max (-1) (min 1 x)) ∧
    (∀ x : ℚ, 0 ≤ clampSample x →
      scaledTrunc (clampSample x) = ⌊clampSample x * 32767⌋) ∧
    (∀ x : ℚ, clampSample x ≤ 0 →
      scaledTrunc (clampSample x) = ⌈clampSample x * 32767⌉) ∧
    samples_to_pcm [0] = [0, 0] ∧
    samples_to_pcm [1] = [255, 127] ∧
    samples_to_pcm [-1] = [1, 128] := by
  refine ⟨samples_to_pcm_length, clampSample_eq, ?_, ?_,
    by decide, by decide, by decide⟩
  · intro x h
    rw [scaledTrunc_eq, truncToI16_of_nonneg _ (mul_nonneg h (by norm_num))]
  · intro x h
    rw [scaledTrunc_eq,
      truncToI16_of_nonpos _ (mul_nonpos_iff.2 (Or.inr ⟨h, by norm_num⟩))]

/-- C3: negotiation fails `NoInputDevice` exactly when no default input
device exists; given a device whose configuration enumeration succeeds, it
fails `NoSupportedConfig` exactly when no configuration with the requested
channel count and F32 format has the requested rate in its range, and
otherwise resolves the first such survivor with the sample rate fixed to
exactly the requested value. -/
theorem c3_negotiation (config : AudioCaptureConfig) (host : Host) :
    (with_config config host = Except.error AudioError.noInputDevice ↔
      host.default_input_device = none) ∧
    (∀ d rs, host.default_input_device = some d →
      d.supported_input_configs = Except.ok rs →
      ((with_config config host =
          Except.error
            (AudioError.noSupportedConfig config.sample_rate config.channels) ↔
        (rs.filter (cfgMatches config)).find? (rateInRange config) = none) ∧
       (∀ sc, (rs.filter (cfgMatches config)).find? (rateInRange config) = some sc →
         with_config config host = Except.ok (initialCapture config sc)))) := by
  constructor
  · constructor
    · intro h
      cases hd : host.default_input_device with
      | none => rfl
      | some d =>
        cases hc : d.supported_input_configs with
        | error e => simp [with_config, hd, hc] at h
        | ok rs =>
          cases hf : (rs.filter (cfgMatches config)).find? (rateInRange config) with
          | none => simp [with_config, hd, hc, hf] at h
          | some sc => simp [with_config, hd, hc, hf] at h
    · intro h
      simp [with_config, h]
  · intro d rs hd hrs
    constructor
    · constructor
      · intro h
        cases hf : (rs.filter (cfgMatches config)).find? (rateInRange config) with
        | none => rfl
        | some sc => simp [with_config, hd, hrs, hf] at h
      · intro h
        simp [with_config, hd, hrs, h]
    · intro sc hf
      simp [with_config, hd, hrs, hf]

/-- C3 witness: on a host advertising mono F32 at 8000–48000 Hz, the default
request (16000 Hz mono) resolves, with the sample rate fixed to 16000. -/
theorem c3_witness :
    (with_config defaultConfig host0 = Except.error AudioError.noInputDevice ↔
      host0.default_input_device = none) ∧
    with_config defaultConfig host0 = Except.ok (initialCapture defaultConfig r0) :=
  ⟨(c3_negotiation defaultConfig host0).1,
   ((c3_negotiation defaultConfig host0).2 dev0 [r0] rfl rfl).2 r0 (by decide)⟩

/-- C4 counterexample: `start()` from `Paused` with a live stream handle
(reached by `start(); pause()`): when stream construction fails, the old
`StreamHandle` is still retained afterwards, refuting "no StreamHandle is
retained" as stated for every pre-call state. -/
theorem c4_counterexample :
    (start (BuildOutcome.buildErr "boom") capPausedWithStream).2 =
      Except.error (AudioError.buildStreamFailed "boom") ∧
    (start (BuildOutcome.buildErr "boom") capPausedWithStream).1.stream = true :=
  ⟨rfl, rfl⟩

/-- C4 (amended): if stream construction or activation fails, the `stream`
field equals its pre-call value (so the newly built stream, if any, is not
retained, and a prior handle is left exactly as it was), `CaptureState`
equals its pre-call value, and in particular the controller never reports
`Recording` after a failed `start()`. -/
theorem c4_start_transactional (s : AudioCapture) (o : BuildOutcome)
    (e : AudioError) (h : (start o s).2 = Except.error e) :
    (start o s).1.stream = s.stream ∧ (start o s).1.state = s.state ∧
      (start o s).1.state ≠ CaptureState.Recording := by
  by_cases hs : s.state = CaptureState.Recording
  · simp [start, hs] at h
  · cases o with
    | ok => simp [start, hs] at h
    | buildErr msg =>
      exact ⟨by simp [start, hs], by simp [start, hs], by simp [start, hs]⟩
    | playErr msg =>
      exact ⟨by simp [start, hs], by simp [start, hs], by simp [start, hs]⟩

/-- C4 witness: a failed `start()` on a freshly negotiated (Idle, no-handle)
controller leaves it Idle with no handle. -/
theorem c4_witness :
    (start (BuildOutcome.buildErr "denied") (initialCapture defaultConfig r0)).1.stream =
      (initialCapture defaultConfig r0).stream ∧
    (start (BuildOutcome.buildErr "denied") (initialCapture defaultConfig r0)).1.state =
      (initialCapture defaultConfig r0).state ∧
    (start (BuildOutcome.buildErr "denied") (initialCapture defaultConfig r0)).1.state ≠
      CaptureState.Recording :=
  c4_start_transactional (initialCapture defaultConfig r0)
    (BuildOutcome.buildErr "denied") (AudioError.buildStreamFailed "denied") rfl

/-- C5: for every pre-call state and buffer, `stop()` returns `Ok` of the
PCM encoding of exactly the queued samples, sets the state to `Idle`,
releases the stream handle and leaves the buffer empty; the encoding of an
empty buffer is the zero-length byte sequence. -/
theorem c5_stop (s : AudioCapture) :
    (stop s).2 = Except.ok (samples_to_pcm s.buffer) ∧
    (stop s).1.state = CaptureState.Idle ∧
    (stop s).1.stream = false ∧
    (stop s).1.buffer = [] ∧
    samples_to_pcm ([] : List ℚ) = [] :=
  ⟨rfl, rfl, rfl, rfl, rfl⟩

/-- C6: `start()` while `Recording` returns success and changes nothing
(buffer and stream handle untouched); `start()` from `Idle` or `Paused`
leaves the buffer cleared for every construction outcome, i.e. the clear
happens before the stream is built. -/
theorem c6_start_idempotent (s : AudioCapture) (o : BuildOutcome) :
    start o { s with state := CaptureState.Recording } =
      ({ s with state := CaptureState.Recording }, Except.ok ()) ∧
    (start o { s with state := CaptureState.Idle }).1.buffer = [] ∧
    (start o { s with state := CaptureState.Paused }).1.buffer = [] := by
  refine ⟨by simp [start], ?_, ?_⟩ <;> cases o <;> simp [start]

/-- C7: `stop_stream()` sets `Idle` and releases the handle with the buffer
unchanged; `take_buffered_audio()` drains the buffer and returns its
encoding with state and handle unchanged; composing them returns the
encoding of exactly the samples buffered at `stop_stream()` time. -/
theorem c7_stop_stream_take (s : AudioCapture) :
    (stop_stream s).1.buffer = s.buffer ∧
    (stop_stream s).1.state = CaptureState.Idle ∧
    (stop_stream s).1.stream = false ∧
    (stop_stream s).2 = Except.ok () ∧
    (take_buffered_audio s).1.state = s.state ∧
    (take_buffered_audio s).1.stream = s.stream ∧
    (take_buffered_audio s).1.buffer = [] ∧
    (take_buffered_audio s).2 = samples_to_pcm s.buffer ∧
    (take_buffered_audio (stop_stream s).1).2 = samples_to_pcm s.buffer :=
  ⟨rfl, rfl, rfl, rfl, rfl, rfl, rfl, rfl, rfl⟩

/-- C8: `buffer_duration_ms` is the floor division
`(queued * 1000) / (sample_rate * channels)`; it is 0 immediately after
construction and after any drain, and is monotone in the queued sample
count for a fixed configuration. -/
theorem c8_buffer_duration (s t : AudioCapture) (config : AudioCaptureConfig)
    (host : Host) (ac : AudioCapture)
    (hac : with_config config host = Except.ok ac)
    (hcfg : s.config = t.config) (hlen : s.buffer.length ≤ t.buffer.length)
    (_hr : 0 < s.config.sample_rate) (_hc : 0 < s.config.channels) :
    buffer_duration_ms s =
      s.buffer.length * 1000 / (s.config.sample_rate * s.config.channels) ∧
    buffer_duration_ms ac = 0 ∧
    buffer_duration_ms (stop s).1 = 0 ∧
    buffer_duration_ms (take_buffered_audio s).1 = 0 ∧
    buffer_duration_ms s ≤ buffer_duration_ms t := by
  refine ⟨rfl, ?_, ?_, ?_, ?_⟩
  · have hb := (with_config_ok_shape config host ac hac).1
    simp [buffer_duration_ms, hb]
  · simp [buffer_duration_ms, stop]
  · simp [buffer_duration_ms, take_buffered_audio]
  · unfold buffer_duration_ms
    rw [hcfg]
    exact Nat.div_le_div_right (Nat.mul_le_mul_right 1000 hlen)

/-- C8 witness: a freshly negotiated controller and drained controllers show
duration 0; one queued sample gives duration ≤ that of two. -/
theorem c8_witness :
    buffer_duration_ms capBuf1 =
      capBuf1.buffer.length * 1000 /
        (capBuf1.config.sample_rate * capBuf1.config.channels) ∧
    buffer_duration_ms (initialCapture defaultConfig r0) = 0 ∧
    buffer_duration_ms (stop capBuf1).1 = 0 ∧
    buffer_duration_ms (take_buffered_audio capBuf1).1 = 0 ∧
    buffer_duration_ms capBuf1 ≤ buffer_duration_ms capBuf2 :=
  c8_buffer_duration capBuf1 capBuf2 defaultConfig host0
    (initialCapture defaultConfig r0) rfl rfl (by decide) (by decide) (by decide)

/-- C9: destruction forces the state to `Idle` and releases any stream
handle, for every prior state — independent of whether `stop()` or
`stop_stream()` was ever called. -/
theorem c9_drop (s : AudioCapture) :
    (dropCapture s).state = CaptureState.Idle ∧ (dropCapture s).stream = false :=
  ⟨rfl, rfl⟩

/-- C10: `pause()` and `resume()` assign the state unconditionally and touch
nothing else; in particular `resume()` from `Idle` with no stream handle
leaves the controller reporting `Recording` with no live stream. -/
theorem c10_pause_resume (s : AudioCapture) :
    (pause s).state = CaptureState.Paused ∧
    (pause s).buffer = s.buffer ∧
    (pause s).stream = s.stream ∧
    (pause s).config = s.config ∧
    (resume s).state = CaptureState.Recording ∧
    (resume s).buffer = s.buffer ∧
    (resume s).stream = s.stream ∧
    (resume s).config = s.config ∧
    (resume { s with state := CaptureState.Idle, stream := false }).state =
      CaptureState.Recording ∧
    (resume { s with state := CaptureState.Idle, stream := false }).stream = false :=
  ⟨rfl, rfl, rfl, rfl, rfl, rfl, rfl, rfl, rfl, rfl⟩
